import Mathlib

/-!
Verification of the metrics aggregation and classification engine of the
threejs-webxr-stats-tool repository.  The definitions below are a shallow
embedding of the PerformanceMonitor class (src/unnamed/part_002) and of the
pieces of its store-side plumbing that the claims touch.  JavaScript numbers
are modelled as exact rationals; where IEEE special values (NaN, Infinity)
are themselves the subject of a claim, an explicit type JSNum with those
values is used instead.  The mutable fields of the class become explicit
state records, and each method becomes a state-passing function.
-/

namespace PerfMon

/-- The metric keys of the PerformanceMetrics record that participate in
change detection or severity classification.  The source calls updateMetric
only with frameTime, networkLatency, drawCalls, triangles, geometries,
textures and programs (part_002 lines 195, 197, 398-402); fps and ms are
written directly to the metrics record (lines 350, 358). -/
inductive MetricKey where
  | fps
  | ms
  | frameTime
  | networkLatency
  | drawCalls
  | triangles
  | geometries
  | textures
  | programs
  deriving DecidableEq

/-- Severity labels of a PerformanceChange (part_002 line 92). -/
inductive Severity where
  | excellent
  | good
  | warning
  | critical
  | danger
  deriving DecidableEq

/-- PerformanceMonitor.getSeverity (part_002 lines 466-491): direction-aware
classification of a percent delta. -/
def getSeverity (metric : MetricKey) (deltaPercent : ℚ) : Severity :=
  let absChange := |deltaPercent|
  if metric ∈ [MetricKey.ms, MetricKey.frameTime, MetricKey.drawCalls, MetricKey.triangles] then
    if deltaPercent > 50 then Severity.danger
    else if deltaPercent > 25 then Severity.critical
    else if deltaPercent > 10 then Severity.warning
    else if deltaPercent < -10 then Severity.excellent
    else Severity.good
  else if metric ∈ [MetricKey.fps] then
    if deltaPercent > 25 then Severity.excellent
    else if deltaPercent > 10 then Severity.good
    else if deltaPercent < -25 then Severity.danger
    else if deltaPercent < -10 then Severity.critical
    else Severity.warning
  else if absChange > 20 then Severity.warning
  else Severity.good

/-- A PerformanceChange record (part_002 lines 85-93). -/
structure PerformanceChange where
  timestamp : ℚ
  metric : MetricKey
  oldValue : ℚ
  newValue : ℚ
  delta : ℚ
  deltaPercent : ℚ
  severity : Severity
  deriving DecidableEq

/-- A bounded FIFO push: array.push(v) followed by array.shift() when the
length exceeds the capacity.  This is the pattern used by the source for the
frame-timing window (part_002 lines 335-340), the latency queue (269-271 and
302-304), the motion history (928-936) and the controller-input history
(955-963). -/
def pushCapped {α : Type} (cap : ℕ) (v : α) (w : List α) : List α :=
  if (w ++ [v]).length > cap then (w ++ [v]).drop 1 else w ++ [v]

/-- A bounded newest-first insert: array.unshift(v) followed by
array.slice(0, cap) when the length exceeds the capacity; the pattern of the
change ring in updateMetric (part_002 lines 456-459). -/
def unshiftCapped {α : Type} (cap : ℕ) (v : α) (w : List α) : List α :=
  if (v :: w).length > cap then (v :: w).take cap else v :: w

/-- The frame-timing window push of end() (part_002 lines 335-340): keep the
last 60 samples. -/
def pushFrameTiming (v : ℚ) (frameTimings : List ℚ) : List ℚ :=
  pushCapped 60 v frameTimings

/-- The latency-queue push of measureNetworkLatency (part_002 lines 269-271
and 302-304): keep the last 10 measurements. -/
def pushLatency (v : ℚ) (latencyQueue : List ℚ) : List ℚ :=
  pushCapped 10 v latencyQueue

/-- The motion-history push of trackMotionToPhotonDelay (part_002 lines
928-936): entries are (timestamp, processed) pairs; keep the last 10. -/
def pushMotion (e : ℚ × ℚ) (motionHistory : List (ℚ × ℚ)) : List (ℚ × ℚ) :=
  pushCapped 10 e motionHistory

/-- The controller-input-history push of trackControllerInputLag (part_002
lines 955-963): entries are (timestamp, processed) pairs; keep the last 20. -/
def pushControllerInput (e : ℚ × ℚ) (hist : List (ℚ × ℚ)) : List (ℚ × ℚ) :=
  pushCapped 20 e hist

/-- The change-ring insert of updateMetric (part_002 lines 456-459): unshift
the newest change, then slice(0, 100) when over 100 entries. -/
def pushChange (c : PerformanceChange) (changes : List PerformanceChange) :
    List PerformanceChange :=
  unshiftCapped 100 c changes

/-- The state touched by the change-detection path: the published metrics
record (one rational per key), the shadow previousMetrics object (a partial
map: keys absent from the JS object read as undefined and are coerced to 0 by
the source via the expression (previousMetrics[key] as number) || 0), and the
changes list. -/
structure ChangeState where
  metrics : MetricKey → ℚ
  previousMetrics : MetricKey → Option ℚ
  changes : List PerformanceChange

/-- The constructor state: every numeric metric field starts at 0 (part_002
lines 124-176), previousMetrics is the empty object (line 179), changes is
empty (line 178). -/
def initialChangeState : ChangeState :=
  { metrics := fun _ => 0
    previousMetrics := fun _ => none
    changes := [] }

/-- Direct assignment to one field of the metrics record
(this.metrics[key] = v). -/
def setMetric (key : MetricKey) (v : ℚ) (s : ChangeState) : ChangeState :=
  { s with metrics := fun k => if k = key then v else s.metrics k }

/-- PerformanceMonitor.updateMetric (part_002 lines 439-464).  oldValue is
read from previousMetrics (coerced to 0 when absent or 0); a change is
recorded only when oldValue is nonzero and the absolute percent delta exceeds
5; afterwards the source copies the not-yet-overwritten metrics[key] into
previousMetrics and only then publishes the new value. -/
def updateMetric (now : ℚ) (key : MetricKey) (value : ℚ) (s : ChangeState) :
    ChangeState :=
  let oldValue : ℚ := (s.previousMetrics key).getD 0
  let delta : ℚ := value - oldValue
  let deltaPercent : ℚ := if oldValue ≠ 0 then delta / oldValue * 100 else 0
  let changes :=
    if oldValue ≠ 0 ∧ |deltaPercent| > 5 then
      pushChange
        { timestamp := now
          metric := key
          oldValue := oldValue
          newValue := value
          delta := delta
          deltaPercent := deltaPercent
          severity := getSeverity key deltaPercent }
        s.changes
    else s.changes
  { metrics := fun k => if k = key then value else s.metrics k
    previousMetrics := fun k =>
      if k = key then some (s.metrics key) else s.previousMetrics k
    changes := changes }

/-- PerformanceMonitor.updateFrameMetrics (part_002 lines 346-393), restricted
to the state the claims touch.  The fps and ms readings are parsed from the
stats.js DOM panels; they are modelled as optional, already-parsed nonzero
numeric readings (none when the panel text is absent).  fps is written
directly as Math.round(1000 / reading) (line 350), ms directly (line 358),
and frameTime as the arithmetic mean of the timing window when it is
nonempty (lines 362-365).  Neither previousMetrics nor the changes list is
touched on this path; the browser-memory and XR branches of the method touch
neither field modelled here. -/
def updateFrameMetrics (statsFps statsMs : Option ℚ) (frameTimings : List ℚ)
    (s : ChangeState) : ChangeState :=
  let s1 := match statsFps with
    | some f => setMetric MetricKey.fps ((round (1000 / f) : ℤ) : ℚ) s
    | none => s
  let s2 := match statsMs with
    | some m => setMetric MetricKey.ms m s1
    | none => s1
  if frameTimings.length > 0 then
    setMetric MetricKey.frameTime (frameTimings.sum / frameTimings.length) s2
  else s2

/-- The metrics fields read and written by the fallback GPU estimator. -/
structure GPUMetrics where
  drawCalls : ℚ
  triangles : ℚ
  gpuFragmentComplexity : ℚ
  textures : ℚ
  frameTime : ℚ
  gpuFrameTime : ℚ
  deriving DecidableEq

/-- The raw complexity-based estimate inside estimateGPUTime (part_002 lines
835-849): base overhead 0.5 ms plus the four load terms. -/
def rawGPUEstimate (m : GPUMetrics) : ℚ :=
  0.5 + m.drawCalls * 0.1 + (m.triangles / 1000) * 0.05 +
    (m.gpuFragmentComplexity / 100) * 0.2 + m.textures * 0.02

/-- PerformanceMonitor.estimateGPUTime (part_002 lines 833-875): the raw
estimate is exponentially smoothed into the published gpuFrameTime with
factor 0.3, then clamped to max(0.5, min(value, frameTime * 0.8)); a final
guard re-seeds the value when it is still 0 while frameTime is positive. -/
def estimateGPUTime (m : GPUMetrics) : GPUMetrics :=
  let drawCallComplexity := m.drawCalls * 0.1
  let triangleComplexity := (m.triangles / 1000) * 0.05
  let shaderComplexity := (m.gpuFragmentComplexity / 100) * 0.2
  let textureComplexity := m.textures * 0.02
  let baseGPUTime : ℚ := 0.5
  let estimatedGPUTime :=
    baseGPUTime + drawCallComplexity + triangleComplexity +
      shaderComplexity + textureComplexity
  let smoothingFactor : ℚ := 0.3
  let smoothed :=
    m.gpuFrameTime * (1 - smoothingFactor) + estimatedGPUTime * smoothingFactor
  let clamped := max 0.5 (min smoothed (m.frameTime * 0.8))
  let final :=
    if m.frameTime > 0 ∧ clamped = 0 then max 0.5 (m.frameTime * 0.4)
    else clamped
  { m with gpuFrameTime := final }

/-- An in-flight GPU timer-query handle (part_002 line 116): the native query
object (modelled by a numeric handle) and the issue timestamp. -/
structure TimerQuery where
  query : ℕ
  startTime : ℚ
  deriving DecidableEq

/-- The pool manipulation of measureGPUTiming (part_002 lines 724-735): push
the new in-flight handle; if the pool then holds more than 5, shift the
oldest out and delete its native query object.  Returns the new pool paired
with the native handles deleted by this call. -/
def issueQuery (q : TimerQuery) (timerQueries : List TimerQuery) :
    List TimerQuery × List ℕ :=
  if (timerQueries ++ [q]).length > 5 then
    ((timerQueries ++ [q]).drop 1,
      ((timerQueries ++ [q]).take 1).map TimerQuery.query)
  else (timerQueries ++ [q], [])

/-- processGPUQueries (part_002 lines 791-815): handles whose result is
available are retired from the pool (the filter callback returns false for
them); availability is environment-determined and modelled as a predicate. -/
def processQueries (avail : TimerQuery → Bool) (timerQueries : List TimerQuery) :
    List TimerQuery :=
  timerQueries.filter (fun qd => !(avail qd))

/-- One step of the in-flight pool's lifetime: either a new query is issued
(measureGPUTiming) or the pool is drained of completed queries
(processGPUQueries) with some environment-determined availability. -/
inductive PoolOp where
  | issue (q : TimerQuery)
  | drain (avail : TimerQuery → Bool)

/-- Apply one pool operation. -/
def applyPoolOp (pool : List TimerQuery) : PoolOp → List TimerQuery
  | PoolOp.issue q => (issueQuery q pool).1
  | PoolOp.drain avail => processQueries avail pool

/-- Run a sequence of pool operations from the initial empty pool
(part_002 line 116). -/
def runPoolOps (ops : List PoolOp) : List TimerQuery :=
  ops.foldl applyPoolOp []

/-- The state read and written by the trackXRFrame closure of
initializeXRSession (part_002 lines 886-897) together with
trackMotionToPhotonDelay (lines 926-945). -/
structure XRFrameState where
  lastXRFrameTime : ℚ
  xrFrameRate : ℚ
  motionHistory : List (ℚ × ℚ)
  motionToPhotonDelay : ℚ
  deriving DecidableEq

/-- trackMotionToPhotonDelay (part_002 lines 926-945): push the
(timestamp, processed) pair into the 10-entry motion history and publish the
mean of (processed - timestamp) over the window. -/
def trackMotionToPhotonDelay (currentTime nowProcessed : ℚ) (s : XRFrameState) :
    XRFrameState :=
  let motionHistory := pushMotion (currentTime, nowProcessed) s.motionHistory
  let avgDelay :=
    (motionHistory.map (fun e => e.2 - e.1)).sum / motionHistory.length
  { s with motionHistory := motionHistory, motionToPhotonDelay := avgDelay }

/-- The trackXRFrame closure of initializeXRSession (part_002 lines 886-897):
on every XR frame callback after the first, the delta to the previous
callback timestamp is formed and xrFrameRate is set to 1000 / delta when the
delta is positive and to 0 otherwise; when the session exposes inputSources,
the motion-to-photon tracker also runs.  The callback timestamp is recorded
last in every case. -/
def trackXRFrame (time nowProcessed : ℚ) (hasInputSources : Bool)
    (s : XRFrameState) : XRFrameState :=
  let s1 :=
    if s.lastXRFrameTime > 0 then
      let deltaTime := time - s.lastXRFrameTime
      let s2 :=
        { s with xrFrameRate := if deltaTime > 0 then 1000 / deltaTime else 0 }
      if hasInputSources then trackMotionToPhotonDelay time nowProcessed s2
      else s2
    else s
  { s1 with lastXRFrameTime := time }

/-- The state read and written by endRenderCall (part_002 lines 980-1017). -/
structure RenderCallState where
  renderCallStartTime : ℚ
  renderCallDuration : ℚ
  frameTime : ℚ
  drawCalls : ℚ
  deriving DecidableEq

/-- PerformanceMonitor.endRenderCall (part_002 lines 980-1017).  With a
pending start time the measured duration is exponentially smoothed (factor
0.2) into renderCallDuration, floored at 0.5 ms, and the start time is
reset; without one, renderCallDuration is set to
max(0.5, frameTime * 0.2 + drawCalls * 0.01). -/
def endRenderCall (now : ℚ) (s : RenderCallState) : RenderCallState :=
  if s.renderCallStartTime > 0 then
    let duration := now - s.renderCallStartTime
    let smoothingFactor : ℚ := 0.2
    let smoothedDuration :=
      s.renderCallDuration * (1 - smoothingFactor) + duration * smoothingFactor
    let d := if smoothedDuration < 0.5 then (0.5 : ℚ) else smoothedDuration
    { s with renderCallDuration := d, renderCallStartTime := 0 }
  else
    { s with
      renderCallDuration := max 0.5 (s.frameTime * 0.2 + s.drawCalls * 0.01) }

/-- The sub-resources touched by dispose (part_002 lines 600-612) plus the
in-flight GPU query pool.  Each observer and the latency interval is an
Option (none = never initialized in this environment); the Bool records
whether the observer is still connected / the interval still active. -/
structure DisposeState where
  performanceObserver : Option Bool
  gcObserver : Option Bool
  latencyTestInterval : Option Bool
  timerQueries : List TimerQuery
  deriving DecidableEq

/-- PerformanceMonitor.dispose (part_002 lines 600-612): disconnect each
observer and clear the latency interval, each guarded on the sub-resource
being non-null, so the method is total also on a never-initialized state.
The in-flight timerQueries field is not touched by dispose. -/
def dispose (s : DisposeState) : DisposeState :=
  { s with
    performanceObserver := s.performanceObserver.map (fun _ => false)
    gcObserver := s.gcObserver.map (fun _ => false)
    latencyTestInterval := s.latencyTestInterval.map (fun _ => false) }

/-- A JavaScript IEEE-754 double restricted to the values the finiteness
claims distinguish: NaN, the two infinities, and exact finite values. -/
inductive JSNum where
  | nan
  | posInf
  | negInf
  | fin (q : ℚ)
  deriving DecidableEq

/-- Number.isFinite. -/
def JSNum.isFinite : JSNum → Bool
  | JSNum.fin _ => true
  | _ => false

/-- IEEE addition on JSNum. -/
def JSNum.add : JSNum → JSNum → JSNum
  | JSNum.nan, _ => JSNum.nan
  | _, JSNum.nan => JSNum.nan
  | JSNum.posInf, JSNum.negInf => JSNum.nan
  | JSNum.negInf, JSNum.posInf => JSNum.nan
  | JSNum.posInf, _ => JSNum.posInf
  | _, JSNum.posInf => JSNum.posInf
  | JSNum.negInf, _ => JSNum.negInf
  | _, JSNum.negInf => JSNum.negInf
  | JSNum.fin a, JSNum.fin b => JSNum.fin (a + b)

/-- IEEE division on JSNum (zero signs collapsed: finite / 0 follows the
sign of the numerator, 0 / 0 is NaN). -/
def JSNum.div : JSNum → JSNum → JSNum
  | JSNum.nan, _ => JSNum.nan
  | _, JSNum.nan => JSNum.nan
  | JSNum.posInf, JSNum.posInf => JSNum.nan
  | JSNum.posInf, JSNum.negInf => JSNum.nan
  | JSNum.negInf, JSNum.posInf => JSNum.nan
  | JSNum.negInf, JSNum.negInf => JSNum.nan
  | JSNum.posInf, JSNum.fin b => if b < 0 then JSNum.negInf else JSNum.posInf
  | JSNum.negInf, JSNum.fin b => if b < 0 then JSNum.posInf else JSNum.negInf
  | JSNum.fin _, JSNum.posInf => JSNum.fin 0
  | JSNum.fin _, JSNum.negInf => JSNum.fin 0
  | JSNum.fin a, JSNum.fin b =>
    if b = 0 then
      if a = 0 then JSNum.nan
      else if a > 0 then JSNum.posInf
      else JSNum.negInf
    else JSNum.fin (a / b)

/-- The frame-timing window push of end() (part_002 lines 335-340) over
IEEE-style numbers: the new frame-time sample is pushed with no finiteness
check before it enters the 60-entry window. -/
def pushFrameTimingJS (v : JSNum) (frameTimings : List JSNum) : List JSNum :=
  pushCapped 60 v frameTimings

/-- The frameTime publication of updateFrameMetrics (part_002 lines 362-365)
over IEEE-style numbers: when the window is nonempty, the published
frameTime is reduce(add, 0) over the window divided by its length; otherwise
the current value is kept. -/
def publishedFrameTimeJS (frameTimings : List JSNum) (current : JSNum) : JSNum :=
  if frameTimings.length > 0 then
    JSNum.div (frameTimings.foldl JSNum.add (JSNum.fin 0))
      (JSNum.fin frameTimings.length)
  else current

/-- Concrete run for the lag analysis of the change detector: three
successive updateMetric calls on drawCalls with values 10, 20, 30. -/
def c1u1 : ChangeState := updateMetric 1 MetricKey.drawCalls 10 initialChangeState

/-- Second step of the concrete run: the metric now reads 20. -/
def c1u2 : ChangeState := updateMetric 2 MetricKey.drawCalls 20 c1u1

/-- Third step of the concrete run: the metric is updated from 20 to 30. -/
def c1u3 : ChangeState := updateMetric 3 MetricKey.drawCalls 30 c1u2

/-- A state whose drawCalls metric and its previousMetrics shadow both read
100, reached by two updateMetric calls with value 100 from the constructor
state. -/
def c2base : ChangeState :=
  updateMetric 2 MetricKey.drawCalls 100
    (updateMetric 1 MetricKey.drawCalls 100 initialChangeState)

/-- A state whose fps metric and its previousMetrics shadow both read 60,
reached by two updateMetric calls with value 60; used to examine what _would_
happen if fps were routed through the change detector. -/
def c3base : ChangeState :=
  updateMetric 2 MetricKey.fps 60 (updateMetric 1 MetricKey.fps 60 initialChangeState)

/-- The end-to-end fps scenario run through the path the source actually
takes: ten frames whose stats.js panel reads 60, then one reading 28, each
processed by updateFrameMetrics. -/
def fpsScenario : ChangeState :=
  ((List.replicate 10 (60 : ℚ)) ++ [28]).foldl
    (fun s f => updateFrameMetrics (some f) none [] s) initialChangeState

/-- The GPU-estimator scenario metrics: drawCalls 200, triangles 50000,
fragment complexity 300, textures 10, frameTime 16, prior gpuFrameTime 0. -/
def gpuScenario : GPUMetrics :=
  { drawCalls := 200, triangles := 50000, gpuFragmentComplexity := 300,
    textures := 10, frameTime := 16, gpuFrameTime := 0 }

/-- A sample change record, used to exercise the change ring concretely. -/
def sampleChange : PerformanceChange :=
  { timestamp := 0, metric := MetricKey.drawCalls, oldValue := 0, newValue := 0,
    delta := 0, deltaPercent := 0, severity := Severity.good }

theorem pushCapped_length_le {α : Type} (cap : ℕ) (v : α) (w : List α)
    (h : w.length ≤ cap) : (pushCapped cap v w).length ≤ cap := by
  unfold pushCapped
  split
  · simp only [List.length_drop, List.length_append, List.length_cons,
      List.length_nil]
    omega
  · next h2 =>
    simp only [not_lt, List.length_append, List.length_cons, List.length_nil] at h2
    simpa using h2

theorem foldl_pushCapped_length_le {α : Type} (cap : ℕ) (vs : List α) :
    ∀ w : List α, w.length ≤ cap →
      (vs.foldl (fun w v => pushCapped cap v w) w).length ≤ cap := by
  induction vs with
  | nil => intro w h; simpa using h
  | cons v vs ih =>
    intro w h
    exact ih _ (pushCapped_length_le cap v w h)

theorem pushCapped_at_cap {α : Type} (cap : ℕ) (hcap : 0 < cap) (v : α)
    (w : List α) (h : w.length = cap) : pushCapped cap v w = w.drop 1 ++ [v] := by
  unfold pushCapped
  rw [if_pos (by simp [h])]
  rcases w with _ | ⟨a, w⟩
  · simp at h
    omega
  · simp

theorem pushCapped_below_cap {α : Type} (cap : ℕ) (v : α) (w : List α)
    (h : w.length < cap) : pushCapped cap v w = w ++ [v] := by
  unfold pushCapped
  rw [if_neg (by simp; omega)]

theorem unshiftCapped_length_le {α : Type} (cap : ℕ) (v : α) (w : List α)
    (_h : w.length ≤ cap) : (unshiftCapped cap v w).length ≤ cap := by
  unfold unshiftCapped
  split
  · simp only [List.length_take]
    omega
  · next h2 =>
    simp only [not_lt, List.length_cons] at h2
    simpa using h2

theorem foldl_unshiftCapped_length_le {α : Type} (cap : ℕ) (vs : List α) :
    ∀ w : List α, w.length ≤ cap →
      (vs.foldl (fun w v => unshiftCapped cap v w) w).length ≤ cap := by
  induction vs with
  | nil => intro w h; simpa using h
  | cons v vs ih =>
    intro w h
    exact ih _ (unshiftCapped_length_le cap v w h)

theorem unshiftCapped_at_cap {α : Type} (cap : ℕ) (hcap : 0 < cap) (v : α)
    (w : List α) (h : w.length = cap) :
    unshiftCapped cap v w = v :: w.take (cap - 1) := by
  unfold unshiftCapped
  rw [if_pos (by simp [h])]
  rcases cap with _ | n
  · omega
  · simp [List.take_succ_cons]

theorem unshiftCapped_head {α : Type} (cap : ℕ) (hcap : 0 < cap) (v : α)
    (w : List α) : (unshiftCapped cap v w).head? = some v := by
  unfold unshiftCapped
  split
  · rcases cap with _ | n
    · omega
    · simp [List.take_succ_cons]
  · simp

/-- Claim C6: every bounded buffer of the monitor respects its capacity after
any number of insertions, with the oldest entry evicted first: the
frame-timing window holds at most 60 samples, the latency queue at most 10,
the motion history at most 10, the controller-input history at most 20 (all
FIFO, pushed at the back, oldest shifted from the front when at capacity),
and the change ring holds at most 100 entries inserted newest-first (the
newest is the head; at capacity the oldest tail entry is truncated). -/
theorem boundedBuffers_capacity_fifo :
    (∀ vs : List ℚ,
      (vs.foldl (fun w v => pushFrameTiming v w) []).length ≤ 60) ∧
    (∀ vs : List ℚ,
      (vs.foldl (fun w v => pushLatency v w) []).length ≤ 10) ∧
    (∀ vs : List (ℚ × ℚ),
      (vs.foldl (fun w e => pushMotion e w) []).length ≤ 10) ∧
    (∀ vs : List (ℚ × ℚ),
      (vs.foldl (fun w e => pushControllerInput e w) []).length ≤ 20) ∧
    (∀ cs : List PerformanceChange,
      (cs.foldl (fun w c => pushChange c w) []).length ≤ 100) ∧
    (∀ (v : ℚ) (w : List ℚ), w.length = 60 →
      pushFrameTiming v w = w.drop 1 ++ [v]) ∧
    (∀ (v : ℚ) (w : List ℚ), w.length < 60 →
      pushFrameTiming v w = w ++ [v]) ∧
    (∀ (v : ℚ) (w : List ℚ), w.length = 10 →
      pushLatency v w = w.drop 1 ++ [v]) ∧
    (∀ (e : ℚ × ℚ) (w : List (ℚ × ℚ)), w.length = 10 →
      pushMotion e w = w.drop 1 ++ [e]) ∧
    (∀ (e : ℚ × ℚ) (w : List (ℚ × ℚ)), w.length = 20 →
      pushControllerInput e w = w.drop 1 ++ [e]) ∧
    (∀ (c : PerformanceChange) (cs : List PerformanceChange),
      (pushChange c cs).head? = some c) ∧
    (∀ (c : PerformanceChange) (cs : List PerformanceChange), cs.length = 100 →
      pushChange c cs = c :: cs.take 99) := by
  refine ⟨?_, ?_, ?_, ?_, ?_, ?_, ?_, ?_, ?_, ?_, ?_, ?_⟩
  · intro vs
    exact foldl_pushCapped_length_le 60 vs [] (by simp)
  · intro vs
    exact foldl_pushCapped_length_le 10 vs [] (by simp)
  · intro vs
    exact foldl_pushCapped_length_le 10 vs [] (by simp)
  · intro vs
    exact foldl_pushCapped_length_le 20 vs [] (by simp)
  · intro cs
    exact foldl_unshiftCapped_length_le 100 cs [] (by simp)
  · intro v w h
    exact pushCapped_at_cap 60 (by omega) v w h
  · intro v w h
    exact pushCapped_below_cap 60 v w h
  · intro v w h
    exact pushCapped_at_cap 10 (by omega) v w h
  · intro e w h
    exact pushCapped_at_cap 10 (by omega) e w h
  · intro e w h
    exact pushCapped_at_cap 20 (by omega) e w h
  · intro c cs
    exact unshiftCapped_head 100 (by omega) c cs
  · intro c cs h
    exact unshiftCapped_at_cap 100 (by omega) c cs h

/-- Witness for claim C6 at concrete inputs: 100 pushes into the frame
window leave at most 60 entries, a push into a full 10-entry latency queue
evicts the head, and a change pushed into a full 100-entry ring keeps only
the first 99 old entries behind it. -/
theorem boundedBuffers_capacity_fifo_witness :
    (((List.replicate 100 (1 : ℚ)).foldl
        (fun w v => pushFrameTiming v w) []).length ≤ 60) ∧
    pushLatency 3 (List.replicate 10 (0 : ℚ)) =
      (List.replicate 10 (0 : ℚ)).drop 1 ++ [3] ∧
    pushChange sampleChange (List.replicate 100 sampleChange) =
      sampleChange :: (List.replicate 100 sampleChange).take 99 :=
  ⟨boundedBuffers_capacity_fifo.1 _,
   boundedBuffers_capacity_fifo.2.2.2.2.2.2.2.1 3 _ (by simp),
   boundedBuffers_capacity_fifo.2.2.2.2.2.2.2.2.2.2.2 sampleChange _ (by simp)⟩

theorem issueQuery_fst (q : TimerQuery) (pool : List TimerQuery) :
    (issueQuery q pool).1 = pushCapped 5 q pool := by
  unfold issueQuery pushCapped
  split <;> rfl

theorem applyPoolOp_length_le (pool : List TimerQuery) (op : PoolOp)
    (h : pool.length ≤ 5) : (applyPoolOp pool op).length ≤ 5 := by
  cases op with
  | issue q =>
    rw [applyPoolOp, issueQuery_fst]
    exact pushCapped_length_le 5 q pool h
  | drain avail =>
    rw [applyPoolOp]
    exact le_trans (List.length_filter_le _ _) h

/-- Claim C5: the in-flight GPU timer-query pool never holds more than 5
entries after any sequence of issue and drain steps, regardless of whether
results ever arrive; issuing into a full pool evicts the oldest handle and
deletes its native query object, while issuing into a non-full pool deletes
nothing. -/
theorem timerQueryPool_bounded :
    (∀ ops : List PoolOp, (runPoolOps ops).length ≤ 5) ∧
    (∀ (q h : TimerQuery) (t : List TimerQuery), (h :: t).length = 5 →
      issueQuery q (h :: t) = (t ++ [q], [h.query])) ∧
    (∀ (q : TimerQuery) (pool : List TimerQuery), pool.length < 5 →
      issueQuery q pool = (pool ++ [q], [])) := by
  refine ⟨?_, ?_, ?_⟩
  · intro ops
    have aux : ∀ (ops : List PoolOp) (pool : List TimerQuery),
        pool.length ≤ 5 → (ops.foldl applyPoolOp pool).length ≤ 5 := by
      intro ops
      induction ops with
      | nil => intro pool h; simpa using h
      | cons op ops ih =>
        intro pool h
        exact ih _ (applyPoolOp_length_le pool op h)
    exact aux ops [] (by simp)
  · intro q h t hlen
    unfold issueQuery
    rw [if_pos (by simp at hlen ⊢; omega)]
    simp
  · intro q pool hlen
    unfold issueQuery
    rw [if_neg (by simp; omega)]

/-- Witness for claim C5 at concrete inputs: seven issues in a row leave at
most 5 in-flight handles; issuing into a concrete full pool evicts and
deletes the oldest handle 1; issuing into an empty pool deletes nothing. -/
theorem timerQueryPool_bounded_witness :
    (runPoolOps ((List.range 7).map
      (fun i => PoolOp.issue { query := i, startTime := 0 }))).length ≤ 5 ∧
    issueQuery { query := 6, startTime := 6 }
      [⟨1, 0⟩, ⟨2, 0⟩, ⟨3, 0⟩, ⟨4, 0⟩, ⟨5, 0⟩] =
      ([⟨2, 0⟩, ⟨3, 0⟩, ⟨4, 0⟩, ⟨5, 0⟩, ⟨6, 6⟩], [1]) ∧
    issueQuery { query := 0, startTime := 0 } [] = ([⟨0, 0⟩], []) :=
  ⟨timerQueryPool_bounded.1 _,
   timerQueryPool_bounded.2.1 ⟨6, 6⟩ ⟨1, 0⟩ _ (by simp),
   timerQueryPool_bounded.2.2 ⟨0, 0⟩ [] (by simp)⟩

theorem updateMetric_previousMetrics_self (now : ℚ) (key : MetricKey)
    (value : ℚ) (s : ChangeState) :
    (updateMetric now key value s).previousMetrics key = some (s.metrics key) := by
  simp [updateMetric]

theorem updateMetric_metrics_self (now : ℚ) (key : MetricKey) (value : ℚ)
    (s : ChangeState) : (updateMetric now key value s).metrics key = value := by
  simp [updateMetric]

theorem updateMetric_changes_of_emit (now : ℚ) (key : MetricKey) (value : ℚ)
    (s : ChangeState) (h0 : (s.previousMetrics key).getD 0 ≠ 0)
    (h5 : |(value - (s.previousMetrics key).getD 0) /
        (s.previousMetrics key).getD 0 * 100| > 5)
    (hlen : s.changes.length < 100) :
    (updateMetric now key value s).changes =
      { timestamp := now, metric := key,
        oldValue := (s.previousMetrics key).getD 0, newValue := value,
        delta := value - (s.previousMetrics key).getD 0,
        deltaPercent := (value - (s.previousMetrics key).getD 0) /
          (s.previousMetrics key).getD 0 * 100,
        severity := getSeverity key ((value - (s.previousMetrics key).getD 0) /
          (s.previousMetrics key).getD 0 * 100) } :: s.changes := by
  simp only [updateMetric]
  rw [if_pos h0, if_pos ⟨h0, h5⟩]
  unfold pushChange unshiftCapped
  rw [if_neg (by simp only [List.length_cons, not_lt]; omega)]

theorem updateMetric_changes_of_not_emit (now : ℚ) (key : MetricKey)
    (value : ℚ) (s : ChangeState)
    (h : ¬ ((s.previousMetrics key).getD 0 ≠ 0 ∧
      |(value - (s.previousMetrics key).getD 0) /
          (s.previousMetrics key).getD 0 * 100| > 5)) :
    (updateMetric now key value s).changes = s.changes := by
  simp only [updateMetric]
  rw [if_neg]
  intro hcond
  rcases hcond with ⟨h0, h5⟩
  rw [if_pos h0] at h5
  exact h ⟨h0, h5⟩

/-- Claim C1 counterexample: with updates 10, 20, 30 to drawCalls through
updateMetric, the metric's value immediately before the third update is 20,
yet the change recorded by the third update carries oldValue 10 and delta 20
instead of the claimed delta 30 - 20 = 10 against the immediately preceding
value. -/
theorem updateMetric_stale_oldValue_cex :
    c1u2.metrics MetricKey.drawCalls = 20 ∧
    c1u3.changes = [
      { timestamp := 3, metric := MetricKey.drawCalls, oldValue := 10,
        newValue := 30, delta := 20, deltaPercent := 200,
        severity := Severity.danger }] ∧
    (20 : ℚ) ≠ 30 - 20 := by
  refine ⟨?_, ?_, by norm_num⟩
  · norm_num [c1u2, c1u1, initialChangeState, updateMetric]
  · norm_num [c1u3, c1u2, c1u1, initialChangeState, updateMetric, getSeverity,
      pushChange, unshiftCapped]

/-- Claim C1 amended: the delta recorded by updateMetric is computed against
the metric value published before the immediately preceding update — the
previousMetrics shadow lags one update behind — so after one update writes v
to a metric, a second update to v2 emits a change whose oldValue and delta
are taken from the value the metric held before v, not from v. -/
theorem updateMetric_delta_lags_one_update
    (s : ChangeState) (t t2 : ℚ) (key : MetricKey) (v v2 : ℚ)
    (h0 : s.metrics key ≠ 0)
    (h5 : |(v2 - s.metrics key) / s.metrics key * 100| > 5)
    (hlen : (updateMetric t key v s).changes.length < 100) :
    (updateMetric t2 key v2 (updateMetric t key v s)).changes =
      { timestamp := t2, metric := key, oldValue := s.metrics key,
        newValue := v2, delta := v2 - s.metrics key,
        deltaPercent := (v2 - s.metrics key) / s.metrics key * 100,
        severity := getSeverity key ((v2 - s.metrics key) / s.metrics key * 100) }
        :: (updateMetric t key v s).changes := by
  have hprev := updateMetric_previousMetrics_self t key v s
  have h0' : ((updateMetric t key v s).previousMetrics key).getD 0 ≠ 0 := by
    rw [hprev]
    simpa using h0
  have h5' : |(v2 - ((updateMetric t key v s).previousMetrics key).getD 0) /
      ((updateMetric t key v s).previousMetrics key).getD 0 * 100| > 5 := by
    rw [hprev]
    simpa using h5
  rw [updateMetric_changes_of_emit t2 key v2 (updateMetric t key v s) h0' h5' hlen]
  rw [hprev]
  simp

/-- Witness for claim C1 at a concrete input: from the state reached by a
single update to 10, updating to 20 and then 30 records a change against 10
(the value before the preceding update). -/
theorem updateMetric_delta_lags_one_update_witness :
    (updateMetric 3 MetricKey.drawCalls 30
        (updateMetric 2 MetricKey.drawCalls 20 c1u1)).changes =
      { timestamp := 3, metric := MetricKey.drawCalls,
        oldValue := c1u1.metrics MetricKey.drawCalls, newValue := 30,
        delta := 30 - c1u1.metrics MetricKey.drawCalls,
        deltaPercent := (30 - c1u1.metrics MetricKey.drawCalls) /
          c1u1.metrics MetricKey.drawCalls * 100,
        severity := getSeverity MetricKey.drawCalls
          ((30 - c1u1.metrics MetricKey.drawCalls) /
            c1u1.metrics MetricKey.drawCalls * 100) }
        :: (updateMetric 2 MetricKey.drawCalls 20 c1u1).changes :=
  updateMetric_delta_lags_one_update c1u1 2 3 MetricKey.drawCalls 20 30
    (by norm_num [c1u1, initialChangeState, updateMetric])
    (by norm_num [c1u1, initialChangeState, updateMetric])
    (by norm_num [c1u1, initialChangeState, updateMetric])

/-- Claim C2: a change event is appended by updateMetric iff the old value it
reads is nonzero and the absolute percent delta exceeds 5; from a state whose
drawCalls baseline reads 100 (published value and shadow alike), an update to
101 emits nothing and an update to 120 emits exactly one event. -/
theorem updateMetric_emission_iff :
    (∀ (now value : ℚ) (key : MetricKey) (s : ChangeState),
      s.changes.length < 100 →
      (((updateMetric now key value s).changes ≠ s.changes) ↔
        ((s.previousMetrics key).getD 0 ≠ 0 ∧
          |(value - (s.previousMetrics key).getD 0) /
              (s.previousMetrics key).getD 0 * 100| > 5))) ∧
    c2base.metrics MetricKey.drawCalls = 100 ∧
    c2base.previousMetrics MetricKey.drawCalls = some 100 ∧
    c2base.changes = [] ∧
    (updateMetric 3 MetricKey.drawCalls 101 c2base).changes = [] ∧
    (updateMetric 3 MetricKey.drawCalls 120 c2base).changes.length = 1 := by
  refine ⟨?_,
    by norm_num [c2base, initialChangeState, updateMetric],
    by norm_num [c2base, initialChangeState, updateMetric],
    by norm_num [c2base, initialChangeState, updateMetric],
    by norm_num [c2base, initialChangeState, updateMetric],
    by norm_num [c2base, initialChangeState, updateMetric, pushChange,
      unshiftCapped]⟩
  intro now value key s hlen
  constructor
  · intro hne
    by_contra hcond
    exact hne (updateMetric_changes_of_not_emit now key value s hcond)
  · intro hcond
    rw [updateMetric_changes_of_emit now key value s hcond.1 hcond.2 hlen]
    exact List.cons_ne_self _ _

/-- Witness for claim C2: the emission criterion applied at the concrete
baseline state with new value 120 (all hypotheses discharged by evaluation). -/
theorem updateMetric_emission_iff_witness :
    (updateMetric 3 MetricKey.drawCalls 120 c2base).changes ≠ c2base.changes :=
  (updateMetric_emission_iff.1 3 120 MetricKey.drawCalls c2base
      (by norm_num [c2base, initialChangeState, updateMetric])).mpr
    (by norm_num [c2base, initialChangeState, updateMetric])

theorem getSeverity_degradation (m : MetricKey)
    (hm : m ∈ [MetricKey.ms, MetricKey.frameTime, MetricKey.drawCalls,
      MetricKey.triangles]) (dp : ℚ) :
    getSeverity m dp =
      if dp > 50 then Severity.danger
      else if dp > 25 then Severity.critical
      else if dp > 10 then Severity.warning
      else if dp < -10 then Severity.excellent
      else Severity.good := by
  simp only [getSeverity]
  rw [if_pos hm]

theorem getSeverity_fps_eq (dp : ℚ) :
    getSeverity MetricKey.fps dp =
      if dp > 25 then Severity.excellent
      else if dp > 10 then Severity.good
      else if dp < -25 then Severity.danger
      else if dp < -10 then Severity.critical
      else Severity.warning := by
  simp only [getSeverity]
  rw [if_neg (by decide), if_pos (by decide)]

/-- Claim C3 counterexample: the fps scenario run through the path the code
actually takes (updateFrameMetrics reading the stats.js panel): ten frames
reading 60 followed by one reading 28 produce no change event at all — fps
is written directly to the metrics record and never routed through the
change detector (nor does it even hold 28: the code stores
round(1000 / 28) = 36). -/
theorem fps_drop_emits_no_event_cex :
    fpsScenario.changes = [] ∧ fpsScenario.metrics MetricKey.fps = 36 := by
  norm_num [fpsScenario, initialChangeState, updateFrameMetrics, setMetric,
    List.replicate, round_eq]

/-- Claim C3 amended: getSeverity follows the direction table exactly as
claimed — for frame time, draw calls and triangles a positive delta maps to
warning above 10, critical above 25 and danger above 50 while a negative
delta maps to excellent or good, and for fps the sign is inverted — and the
60 → 28 fps drop (deltaPercent -160/3 ≈ -53%) classifies as danger, which is
the event updateMetric would emit for fps; but the code never calls
updateMetric with fps (updateFrameMetrics leaves the change list untouched),
so the scenario emits no event. -/
theorem getSeverity_direction_table :
    (∀ m ∈ [MetricKey.frameTime, MetricKey.drawCalls, MetricKey.triangles],
      ∀ dp : ℚ,
      (10 < dp → dp ≤ 25 → getSeverity m dp = Severity.warning) ∧
      (25 < dp → dp ≤ 50 → getSeverity m dp = Severity.critical) ∧
      (50 < dp → getSeverity m dp = Severity.danger) ∧
      (dp < 0 → getSeverity m dp = Severity.excellent ∨
        getSeverity m dp = Severity.good)) ∧
    (∀ dp : ℚ,
      (25 < dp → getSeverity MetricKey.fps dp = Severity.excellent) ∧
      (10 < dp → dp ≤ 25 → getSeverity MetricKey.fps dp = Severity.good) ∧
      (dp < -25 → getSeverity MetricKey.fps dp = Severity.danger) ∧
      (-25 ≤ dp → dp < -10 → getSeverity MetricKey.fps dp = Severity.critical)) ∧
    getSeverity MetricKey.fps ((28 - 60) / 60 * 100) = Severity.danger ∧
    (∀ (a b : Option ℚ) (w : List ℚ) (s : ChangeState),
      (updateFrameMetrics a b w s).changes = s.changes) ∧
    (updateMetric 11 MetricKey.fps 28 c3base).changes = [
      { timestamp := 11, metric := MetricKey.fps, oldValue := 60,
        newValue := 28, delta := -32, deltaPercent := -160/3,
        severity := Severity.danger }] := by
  refine ⟨?_, ?_, by norm_num [getSeverity_fps_eq], ?_, ?_⟩
  · intro m hm dp
    have hmem : m ∈ [MetricKey.ms, MetricKey.frameTime, MetricKey.drawCalls,
        MetricKey.triangles] := by
      fin_cases hm <;> decide
    rw [getSeverity_degradation m hmem dp]
    refine ⟨?_, ?_, ?_, ?_⟩
    · intro h1 h2
      split_ifs <;> first | rfl | linarith
    · intro h1 h2
      split_ifs <;> first | rfl | linarith
    · intro h1
      split_ifs <;> first | rfl | linarith
    · intro h1
      split_ifs <;> first | (left; rfl) | (right; rfl) | linarith
  · intro dp
    rw [getSeverity_fps_eq dp]
    refine ⟨?_, ?_, ?_, ?_⟩
    · intro h1
      split_ifs <;> first | rfl | linarith
    · intro h1 h2
      split_ifs <;> first | rfl | linarith
    · intro h1
      split_ifs <;> first | rfl | linarith
    · intro h1 h2
      split_ifs <;> first | rfl | linarith
  · intro a b w s
    cases a <;> cases b <;>
      simp only [updateFrameMetrics, setMetric] <;> split <;> rfl
  · rw [updateMetric_changes_of_emit 11 MetricKey.fps 28 c3base
      (by norm_num [c3base, initialChangeState, updateMetric])
      (by norm_num [c3base, initialChangeState, updateMetric, abs_div])
      (by norm_num [c3base, initialChangeState, updateMetric])]
    norm_num [c3base, initialChangeState, updateMetric, getSeverity_fps_eq]

/-- Witness for claim C3 at concrete inputs: a +30% frame-time delta is
critical, a -53% fps delta is danger, and a concrete updateFrameMetrics call
leaves the change list unchanged. -/
theorem getSeverity_direction_table_witness :
    getSeverity MetricKey.frameTime 30 = Severity.critical ∧
    getSeverity MetricKey.fps (-53) = Severity.danger ∧
    (updateFrameMetrics (some 60) none [] initialChangeState).changes =
      initialChangeState.changes :=
  ⟨(getSeverity_direction_table.1 MetricKey.frameTime (by decide) 30).2.1
      (by norm_num) (by norm_num),
   (getSeverity_direction_table.2.1 (-53)).2.2.1 (by norm_num),
   getSeverity_direction_table.2.2.2.1 (some 60) none [] initialChangeState⟩

theorem estimateGPUTime_frameTime (m : GPUMetrics) :
    (estimateGPUTime m).frameTime = m.frameTime := rfl

theorem estimateGPUTime_drawCalls (m : GPUMetrics) :
    (estimateGPUTime m).drawCalls = m.drawCalls := rfl

theorem estimateGPUTime_triangles (m : GPUMetrics) :
    (estimateGPUTime m).triangles = m.triangles := rfl

theorem estimateGPUTime_gpuFragmentComplexity (m : GPUMetrics) :
    (estimateGPUTime m).gpuFragmentComplexity = m.gpuFragmentComplexity := rfl

theorem estimateGPUTime_textures (m : GPUMetrics) :
    (estimateGPUTime m).textures = m.textures := rfl

theorem estimateGPUTime_eq (m : GPUMetrics) :
    (estimateGPUTime m).gpuFrameTime =
      max 0.5 (min (m.gpuFrameTime * 0.7 + rawGPUEstimate m * 0.3)
        (m.frameTime * 0.8)) := by
  simp only [estimateGPUTime, rawGPUEstimate]
  rw [if_neg]
  · norm_num
  · rintro ⟨_, hzero⟩
    have hle := le_max_left (0.5 : ℚ)
      (min (m.gpuFrameTime * (1 - 0.3) +
        (0.5 + m.drawCalls * 0.1 + (m.triangles / 1000) * 0.05 +
          (m.gpuFragmentComplexity / 100) * 0.2 + m.textures * 0.02) * 0.3)
        (m.frameTime * 0.8))
    rw [hzero] at hle
    norm_num at hle

/-- Claim C4 counterexample: on the spec scenario (drawCalls 200, triangles
50000, fragment complexity 300, textures 10, frameTime 16) a fresh estimator
call publishes 7.14, not the claimed 12.8 (the smoothing runs before the
clamp), and with frameTime 0.5 the published value 0.5 exceeds
frameTime * 0.8 = 0.4, so it does not lie in [0.5, frameTime * 0.8]. -/
theorem estimateGPUTime_clamp_cex :
    (estimateGPUTime gpuScenario).gpuFrameTime ≠ 12.8 ∧
    ¬ ((estimateGPUTime
        { drawCalls := 0, triangles := 0, gpuFragmentComplexity := 0,
          textures := 0, frameTime := 0.5, gpuFrameTime := 0 }).gpuFrameTime ≤
      (0.5 : ℚ) * 0.8) := by
  constructor
  · norm_num [estimateGPUTime_eq, rawGPUEstimate, gpuScenario, max_def, min_def]
  · norm_num [estimateGPUTime_eq, rawGPUEstimate, max_def, min_def]

/-- Claim C4 amended: for non-negative inputs with positive frameTime the
published estimate lies in [0.5, max(0.5, frameTime * 0.8)] — the 0.5 floor
wins over the frameTime * 0.8 cap when frameTime < 0.625; the raw scenario
estimate is 23.8 = 0.5 + 20 + 2.5 + 0.6 + 0.2 as claimed, but the published
value is the smoothed 0.7 * previous + 0.3 * raw, clamped afterwards: from a
zero prior the scenario publishes 7.14, and it reaches the claimed clamped
value 12.8 from the third repeated call on. -/
theorem estimateGPUTime_bounds_and_convergence :
    (∀ m : GPUMetrics, 0 ≤ m.drawCalls → 0 ≤ m.triangles →
      0 ≤ m.gpuFragmentComplexity → 0 ≤ m.textures → 0 < m.frameTime →
      (0.5 : ℚ) ≤ (estimateGPUTime m).gpuFrameTime ∧
      (estimateGPUTime m).gpuFrameTime ≤ max 0.5 (m.frameTime * 0.8)) ∧
    (∀ m : GPUMetrics, (estimateGPUTime m).gpuFrameTime =
      max 0.5 (min (m.gpuFrameTime * 0.7 + rawGPUEstimate m * 0.3)
        (m.frameTime * 0.8))) ∧
    rawGPUEstimate gpuScenario = 23.8 ∧
    (estimateGPUTime gpuScenario).gpuFrameTime = 7.14 ∧
    (estimateGPUTime (estimateGPUTime (estimateGPUTime
      gpuScenario))).gpuFrameTime = 12.8 := by
  refine ⟨?_, estimateGPUTime_eq, ?_, ?_, ?_⟩
  · intro m _ _ _ _ _
    rw [estimateGPUTime_eq]
    exact ⟨le_max_left _ _, max_le_max (le_refl _) (min_le_right _ _)⟩
  · norm_num [rawGPUEstimate, gpuScenario]
  · norm_num [estimateGPUTime_eq, rawGPUEstimate, gpuScenario, max_def, min_def]
  · norm_num [estimateGPUTime_eq, estimateGPUTime_frameTime,
      estimateGPUTime_drawCalls, estimateGPUTime_triangles,
      estimateGPUTime_gpuFragmentComplexity, estimateGPUTime_textures,
      rawGPUEstimate, gpuScenario, max_def, min_def]

/-- Witness for claim C4 at a concrete input: the bounds applied to the
scenario metrics with every hypothesis discharged numerically. -/
theorem estimateGPUTime_bounds_and_convergence_witness :
    (0.5 : ℚ) ≤ (estimateGPUTime gpuScenario).gpuFrameTime ∧
    (estimateGPUTime gpuScenario).gpuFrameTime ≤
      max 0.5 (gpuScenario.frameTime * 0.8) :=
  estimateGPUTime_bounds_and_convergence.1 gpuScenario
    (by norm_num [gpuScenario]) (by norm_num [gpuScenario])
    (by norm_num [gpuScenario]) (by norm_num [gpuScenario])
    (by norm_num [gpuScenario])

theorem mem_of_mem_pushCapped {α : Type} (cap : ℕ) (v : α) (w : List α)
    (x : α) (hx : x ∈ pushCapped cap v w) : x ∈ w ++ [v] := by
  unfold pushCapped at hx
  split at hx
  · exact List.mem_of_mem_drop hx
  · exact hx

theorem pushCapped_length_pos {α : Type} (cap : ℕ) (hcap : 0 < cap) (v : α)
    (w : List α) : 0 < (pushCapped cap v w).length := by
  unfold pushCapped
  split
  · next h =>
    simp only [List.length_append, List.length_cons, List.length_nil] at h
    simp only [List.length_drop, List.length_append, List.length_cons,
      List.length_nil]
    omega
  · simp

theorem foldl_add_finite (l : List JSNum) :
    ∀ q : ℚ, (∀ x ∈ l, JSNum.isFinite x = true) →
      JSNum.isFinite (l.foldl JSNum.add (JSNum.fin q)) = true := by
  induction l with
  | nil => intro q _; rfl
  | cons a l ih =>
    intro q hall
    have ha := hall a (by simp)
    cases a with
    | fin b =>
      exact ih (q + b) (fun x hx => hall x (by simp [hx]))
    | nan => simp [JSNum.isFinite] at ha
    | posInf => simp [JSNum.isFinite] at ha
    | negInf => simp [JSNum.isFinite] at ha

theorem publishedFrameTimeJS_finite (w : List JSNum) (cur : JSNum)
    (hw : ∀ x ∈ w, JSNum.isFinite x = true) (hne : 0 < w.length) :
    JSNum.isFinite (publishedFrameTimeJS w cur) = true := by
  unfold publishedFrameTimeJS
  rw [if_pos hne]
  have hsum := foldl_add_finite w 0 hw
  have hlen : ((w.length : ℚ)) ≠ 0 := Nat.cast_ne_zero.mpr (by omega)
  cases hs : w.foldl JSNum.add (JSNum.fin 0) with
  | fin q => simp [JSNum.div, hlen, JSNum.isFinite]
  | nan => rw [hs] at hsum; simp [JSNum.isFinite] at hsum
  | posInf => rw [hs] at hsum; simp [JSNum.isFinite] at hsum
  | negInf => rw [hs] at hsum; simp [JSNum.isFinite] at hsum

/-- Claim C7 counterexample: a NaN sample offered to the frame-timing window
is not dropped — the window changes from [] to [NaN] — and the published
frame-time average over that window is NaN, a non-finite value propagated
into the snapshot. -/
theorem nonfinite_sample_enters_window_cex :
    pushFrameTimingJS JSNum.nan [] = [JSNum.nan] ∧
    ([JSNum.nan] : List JSNum) ≠ ([] : List JSNum) ∧
    publishedFrameTimeJS (pushFrameTimingJS JSNum.nan []) (JSNum.fin 0) =
      JSNum.nan ∧
    JSNum.isFinite JSNum.nan = false := by
  exact ⟨rfl, by simp, rfl, rfl⟩

/-- Claim C7 amended: the rolling windows perform no finiteness check, so a
non-finite sample offered to a window enters it (see the counterexample);
what does hold is preservation: when the offered sample and the current
window entries are all finite, every entry of the updated window is finite
and the published frame-time average is finite. -/
theorem finite_samples_preserved (v : JSNum) (w : List JSNum) (cur : JSNum)
    (hv : JSNum.isFinite v = true)
    (hw : ∀ x ∈ w, JSNum.isFinite x = true) :
    (∀ x ∈ pushFrameTimingJS v w, JSNum.isFinite x = true) ∧
    JSNum.isFinite (publishedFrameTimeJS (pushFrameTimingJS v w) cur) = true := by
  have hall : ∀ x ∈ pushFrameTimingJS v w, JSNum.isFinite x = true := by
    intro x hx
    rcases List.mem_append.mp (mem_of_mem_pushCapped 60 v w x hx) with h | h
    · exact hw x h
    · simp only [List.mem_singleton] at h
      subst h
      exact hv
  exact ⟨hall, publishedFrameTimeJS_finite _ cur hall
    (pushCapped_length_pos 60 (by omega) v w)⟩

/-- Witness for claim C7 at a concrete input: a finite sample pushed into a
finite window yields a finite published frame time. -/
theorem finite_samples_preserved_witness :
    JSNum.isFinite (publishedFrameTimeJS
      (pushFrameTimingJS (JSNum.fin 16) [JSNum.fin 17]) (JSNum.fin 0)) = true :=
  (finite_samples_preserved (JSNum.fin 16) [JSNum.fin 17] (JSNum.fin 0)
    rfl (by simp [JSNum.isFinite])).2

/-- Claim C8 counterexample: two XR frame callbacks with the same timestamp
(delta 0) overwrite the previous xrFrameRate 90 with 0 — the previous
frame-rate value is not retained as claimed. -/
theorem xrFrameRate_zeroed_cex :
    (trackXRFrame 100 100 false
      { lastXRFrameTime := 100, xrFrameRate := 90, motionHistory := [],
        motionToPhotonDelay := 0 }).xrFrameRate = 0 ∧
    (trackXRFrame 100 100 false
      { lastXRFrameTime := 100, xrFrameRate := 90, motionHistory := [],
        motionToPhotonDelay := 0 }).xrFrameRate ≠ 90 := by
  norm_num [trackXRFrame, trackMotionToPhotonDelay]

/-- Claim C8 amended: on every XR frame callback after the first, the
published XR frame rate is 1000 / delta when the delta since the previous
callback timestamp is positive and is set to 0 otherwise (the previous value
is not retained); no division is performed unless the delta is positive, and
the previous value is kept only before the first delta exists
(lastXRFrameTime not yet positive); the callback timestamp is always
recorded. -/
theorem trackXRFrame_rate_cases (time nowProcessed : ℚ) (his : Bool)
    (s : XRFrameState) :
    (s.lastXRFrameTime > 0 → 0 < time - s.lastXRFrameTime →
      (trackXRFrame time nowProcessed his s).xrFrameRate =
        1000 / (time - s.lastXRFrameTime)) ∧
    (s.lastXRFrameTime > 0 → time - s.lastXRFrameTime ≤ 0 →
      (trackXRFrame time nowProcessed his s).xrFrameRate = 0) ∧
    (¬ s.lastXRFrameTime > 0 →
      (trackXRFrame time nowProcessed his s).xrFrameRate = s.xrFrameRate) ∧
    (trackXRFrame time nowProcessed his s).lastXRFrameTime = time := by
  refine ⟨?_, ?_, ?_, ?_⟩
  · intro h hd
    simp only [trackXRFrame, trackMotionToPhotonDelay]
    rw [if_pos h]
    cases his <;> (simp only [if_pos hd]; rfl)
  · intro h hd
    have hd2 : ¬ (0 < time - s.lastXRFrameTime) := not_lt.mpr hd
    simp only [trackXRFrame, trackMotionToPhotonDelay]
    rw [if_pos h]
    cases his <;> (simp only [if_neg hd2]; rfl)
  · intro h
    simp only [trackXRFrame]
    rw [if_neg h]
  · rfl

/-- Witness for claim C8 at a concrete input: a 10 ms delta publishes
1000 / 10 = 100. -/
theorem trackXRFrame_rate_cases_witness :
    (trackXRFrame 110 111 false
      { lastXRFrameTime := 100, xrFrameRate := 90, motionHistory := [],
        motionToPhotonDelay := 0 }).xrFrameRate = 1000 / (110 - 100) :=
  (trackXRFrame_rate_cases 110 111 false
    { lastXRFrameTime := 100, xrFrameRate := 90, motionHistory := [],
      motionToPhotonDelay := 0 }).1 (by norm_num) (by norm_num)

/-- Claim C9 counterexample: dispose does not release the in-flight GPU
timer queries — a state holding one in-flight handle still holds it after
dispose. -/
theorem dispose_keeps_timerQueries_cex :
    (dispose ⟨some true, some true, some true,
      [⟨1, 0⟩]⟩).timerQueries = [(⟨1, 0⟩ : TimerQuery)] ∧
    ([(⟨1, 0⟩ : TimerQuery)] : List TimerQuery) ≠ [] := by
  exact ⟨rfl, by simp⟩

/-- Claim C9 amended: dispose disconnects the performance observer and the
GC observer and clears the latency interval, each guarded so that a
never-initialized sub-resource is skipped (the embedding is total, matching
that the method never throws); it is idempotent; but it leaves the in-flight
GPU timer queries untouched, so it does not release in-flight GPU
resources. -/
theorem dispose_idempotent_and_releases :
    (∀ s : DisposeState, dispose (dispose s) = dispose s) ∧
    (∀ s : DisposeState, (dispose s).performanceObserver ≠ some true ∧
      (dispose s).gcObserver ≠ some true ∧
      (dispose s).latencyTestInterval ≠ some true) ∧
    (∀ s : DisposeState, (dispose s).timerQueries = s.timerQueries) ∧
    dispose ⟨none, none, none, []⟩ = (⟨none, none, none, []⟩ : DisposeState) := by
  refine ⟨?_, ?_, ?_, rfl⟩
  · rintro ⟨p, g, l, t⟩
    cases p <;> cases g <;> cases l <;> rfl
  · rintro ⟨p, g, l, t⟩
    refine ⟨?_, ?_, ?_⟩ <;>
      first
        | (cases p <;> simp [dispose])
        | (cases g <;> simp [dispose])
        | (cases l <;> simp [dispose])
  · intro s
    rfl

/-- Witness for claim C9 at a concrete input: disposing twice from a fully
initialized state equals disposing once. -/
theorem dispose_idempotent_and_releases_witness :
    dispose (dispose ⟨some true, some true, some true, []⟩) =
      dispose (⟨some true, some true, some true, []⟩ : DisposeState) :=
  dispose_idempotent_and_releases.1 _

/-- Claim C10: after every endRenderCall — paired with a startRenderCall or
not — the published renderCallDuration is at least 0.5 ms, and in the
unpaired case (no positive pending start time) it equals
max(0.5, frameTime * 0.2 + drawCalls * 0.01). -/
theorem endRenderCall_min_bound (now : ℚ) (s : RenderCallState) :
    (0.5 : ℚ) ≤ (endRenderCall now s).renderCallDuration ∧
    (¬ s.renderCallStartTime > 0 →
      (endRenderCall now s).renderCallDuration =
        max 0.5 (s.frameTime * 0.2 + s.drawCalls * 0.01)) := by
  simp only [endRenderCall]
  split
  · next h =>
    refine ⟨?_, fun hn => absurd h hn⟩
    split
    · norm_num
    · next h2 => exact le_of_not_lt h2
  · next h =>
    exact ⟨le_max_left _ _, fun _ => rfl⟩

/-- Witness for claim C10 at a concrete input: an unpaired endRenderCall
with frameTime 16 and 100 draw calls publishes max(0.5, 4.2). -/
theorem endRenderCall_min_bound_witness :
    (0.5 : ℚ) ≤ (endRenderCall 5
      { renderCallStartTime := 0, renderCallDuration := 0, frameTime := 16,
        drawCalls := 100 }).renderCallDuration ∧
    (endRenderCall 5
      { renderCallStartTime := 0, renderCallDuration := 0, frameTime := 16,
        drawCalls := 100 }).renderCallDuration =
      max 0.5 ((16 : ℚ) * 0.2 + (100 : ℚ) * 0.01) :=
  ⟨(endRenderCall_min_bound 5
      { renderCallStartTime := 0, renderCallDuration := 0, frameTime := 16,
        drawCalls := 100 }).1,
   (endRenderCall_min_bound 5
      { renderCallStartTime := 0, renderCallDuration := 0, frameTime := 16,
        drawCalls := 100 }).2 (by norm_num)⟩

end PerfMon
